import Mathlib

/-!
Shallow embedding of `screenshot.cpp` from the txt40-screenshot repository:
a command-line tool that captures the TXT 4.0 controller's 240x320 RGB565
framebuffer, converts it to RGB888 and writes it to a uniquely named PNG
file.  Machine integers are modelled as `Nat` (all the arithmetic in the
source stays far below every overflow boundary, noted where relevant),
the filesystem as the finite list of paths that exist, and the fallible
pipeline steps via explicit success flags / `Except`.
-/

namespace Screenshot

/-- Display width constant `WIDTH = 240` (screenshot.cpp line 46). -/
def WIDTH : Nat := 240

/-- Display height constant `HEIGHT = 320` (line 47). -/
def HEIGHT : Nat := 320

/-- Constant `COUNTER_STR_SIZE = 10` (line 52): size of the char
buffer the collision counter is rendered into by `std::to_chars`. -/
def COUNTER_STR_SIZE : Nat := 10

/-- Constant `RED_MAX = 31` (line 55). -/
def RED_MAX : Nat := 31

/-- Constant `GREEN_MAX = 63` (line 56). -/
def GREEN_MAX : Nat := 63

/-- Constant `BLUE_MAX = 31` (line 57). -/
def BLUE_MAX : Nat := 31

/-- Constant `COLOR_MAX = 255` (line 58). -/
def COLOR_MAX : Nat := 255

/-- The value triple held by the bit-field struct `RGB565` (lines 60-64):
`blue : 5`, `green : 6`, `red : 5` bits.  Fields carry the numeric value
of each bit-field. -/
structure RGB565 where
  blue : Nat
  green : Nat
  red : Nat
  deriving Repr, DecidableEq

/-- Struct `RGB888` (lines 66-70): one 8-bit value per channel. -/
structure RGB888 where
  red : Nat
  green : Nat
  blue : Nat
  deriving Repr, DecidableEq

/-- Decoding of a raw 16-bit framebuffer word into the `RGB565` bit-fields.
Models the GCC little-endian bit-field layout the source relies on
(lines 60-64): the first declared field (`blue`) occupies the least
significant bits, so `blue` is bits 0-4, `green` bits 5-10, `red`
bits 11-15 of the 16-bit word. -/
def decodeRGB565 (w : Nat) : RGB565 :=
  { blue := w % 2 ^ 5
    green := w / 2 ^ 5 % 2 ^ 6
    red := w / 2 ^ 11 % 2 ^ 5 }

/-- The red / blue channel rescale `v * COLOR_MAX / RED_MAX` from lines
138 and 140 (RED_MAX = BLUE_MAX = 31).  C++ `int` arithmetic never exceeds
31 * 255 = 7905, so plain `Nat` arithmetic is exact. -/
def convert5 (v : Nat) : Nat := v * COLOR_MAX / RED_MAX

/-- The green channel rescale `v * COLOR_MAX / GREEN_MAX` from line 139. -/
def convert6 (v : Nat) : Nat := v * COLOR_MAX / GREEN_MAX

/-- The per-pixel body of the conversion loop (lines 138-140). -/
def convertPixel (p : RGB565) : RGB888 :=
  { red := p.red * COLOR_MAX / RED_MAX
    green := p.green * COLOR_MAX / GREEN_MAX
    blue := p.blue * COLOR_MAX / BLUE_MAX }

/-- Function `convertRgb565ToRgb888` (lines 135-144): pointwise conversion of the
WIDTH*HEIGHT pixel buffer; the loop applies `convertPixel` at every
index, i.e. maps it over the buffer. -/
def convertRgb565ToRgb888 (buffer565 : List RGB565) : List RGB888 :=
  buffer565.map convertPixel

/-! ### Decimal rendering of the collision counter

`generateFileName` renders the counter with `std::to_chars(begin, end, counter)`
(line 118), which writes the shortest decimal form and fails exactly when it
does not fit the 10-byte buffer.  `toDecimal` is the standard
most-significant-digit-first decimal rendering. -/

/-- Digit-by-digit decimal rendering, least significant digit first into
the accumulator; `fuel` bounds the recursion depth and is always chosen
large enough. -/
def toDecimalCore : Nat → Nat → List Char → List Char
  | 0, _, acc => acc
  | fuel + 1, n, acc =>
    if n < 10 then Nat.digitChar n :: acc
    else toDecimalCore fuel (n / 10) (Nat.digitChar (n % 10) :: acc)

/-- Decimal digit characters of `n`, most significant first; models the
output that `std::to_chars` produces for a non-negative value. -/
def toDecimal (n : Nat) : List Char :=
  toDecimalCore (n + 1) n []

/-- The decimal rendering as a string. -/
def toDecimalStr (n : Nat) : String :=
  String.mk (toDecimal n)

/-- Model of `std::to_chars(counterStr.begin(), counterStr.end(), counter)`
on the 10-byte buffer (lines 112 and 118): succeeds, returning the digits
written, iff the decimal form fits in `COUNTER_STR_SIZE` bytes. -/
def toChars (n : Nat) : Option String :=
  if (toDecimal n).length ≤ COUNTER_STR_SIZE then some (toDecimalStr n) else none

theorem toDecimalCore_append (fuel n : Nat) (acc : List Char) :
    toDecimalCore fuel n acc = toDecimalCore fuel n [] ++ acc := by
  induction fuel generalizing n acc with
  | zero => simp [toDecimalCore]
  | succ fuel ih =>
    by_cases h : n < 10
    · simp [toDecimalCore, h]
    · simp only [toDecimalCore, h, if_false]
      rw [ih (n / 10) (Nat.digitChar (n % 10) :: acc),
        ih (n / 10) [Nat.digitChar (n % 10)]]
      simp

theorem toDecimal_length (n : Nat) : (toDecimal n).length = Nat.log 10 n + 1 := by
  suffices h : ∀ fuel m, m < fuel → (toDecimalCore fuel m []).length = Nat.log 10 m + 1 by
    exact h (n + 1) n (by omega)
  intro fuel
  induction fuel with
  | zero => intro m hm; omega
  | succ fuel ih =>
    intro m hm
    by_cases h : m < 10
    · simp [toDecimalCore, h, Nat.log_of_lt h]
    · have h10 : (10 : Nat) ≤ m := by omega
      simp only [toDecimalCore, h, if_false]
      rw [toDecimalCore_append, List.length_append]
      have hdiv : m / 10 < fuel := by
        have := Nat.div_lt_self (show 0 < m by omega) (show 1 < 10 by omega)
        omega
      rw [ih (m / 10) hdiv, Nat.log_of_one_lt_of_le (by omega) h10]
      simp

theorem toDecimalStr_length (n : Nat) :
    (toDecimalStr n).length = Nat.log 10 n + 1 := by
  simp [toDecimalStr, String.length, toDecimal_length]

/-- Lower bound used for loop termination: a counter of at least `10 ^ L`
renders to more than `L` characters. -/
theorem lt_toDecimal_length_of_pow_le {L n : Nat} (h : 10 ^ L ≤ n) :
    L < (toDecimal n).length := by
  rw [toDecimal_length]
  have hm : Nat.log 10 (10 ^ L) ≤ Nat.log 10 n := Nat.log_mono_right h
  rw [Nat.log_pow (by omega)] at hm
  omega

/-! ### File name generation

The filesystem is modelled as the finite list `fs` of paths that exist at
generation time; `fileExists` (lines 81-84, a `stat` call) is membership. -/

/-- Function `fileExists` (lines 81-84): whether `path` names an existing file. -/
def fileExists (fs : List String) (path : String) : Bool :=
  decide (path ∈ fs)

/-- The candidate path built in the loop body (lines 123-128): strip back to
the base path, then append `-`, the rendered counter, and `.png`. -/
def candidateName (basePath : String) (n : Nat) : String :=
  basePath ++ "-" ++ toDecimalStr n ++ ".png"

/-- Largest length of any existing path; used only to bound the collision
loop's running time. -/
def maxLen (fs : List String) : Nat :=
  fs.foldr (fun s acc => max s.length acc) 0

theorem length_le_maxLen {fs : List String} {s : String} (h : s ∈ fs) :
    s.length ≤ maxLen fs := by
  induction fs with
  | nil => cases h
  | cons a l ih =>
    rcases List.mem_cons.mp h with rfl | h'
    · exact le_max_left _ _
    · exact le_trans (ih h') (le_max_right _ _)

theorem length_mk_list (cs : List Char) : (String.mk cs).length = cs.length := rfl

theorem candidateName_length (bp : String) (n : Nat) :
    (candidateName bp n).length = bp.length + (toDecimal n).length + 5 := by
  simp only [candidateName, String.length_append, toDecimalStr, length_mk_list]
  have h1 : ("-" : String).length = 1 := rfl
  have h4 : (".png" : String).length = 4 := rfl
  omega

/-- There is always a counter whose candidate path does not exist: counters
of at least `10 ^ maxLen fs` render to strings longer than every existing
path. -/
theorem exists_candidate_free (fs : List String) (bp : String) (c : Nat) :
    ∃ m, fileExists fs (candidateName bp (c + m)) = false := by
  refine ⟨10 ^ maxLen fs, ?_⟩
  by_contra hne
  have hmem : candidateName bp (c + 10 ^ maxLen fs) ∈ fs := by
    simpa [fileExists] using hne
  have hlen : (candidateName bp (c + 10 ^ maxLen fs)).length ≤ maxLen fs :=
    length_le_maxLen hmem
  have hbig : maxLen fs < (toDecimal (c + 10 ^ maxLen fs)).length :=
    lt_toDecimal_length_of_pow_le (Nat.le_add_left _ _)
  rw [candidateName_length] at hlen
  omega

/-- Number of further collisions the loop can still encounter when the
counter stands at `c`; the termination measure of `nameLoop`. -/
def nameFuel (fs : List String) (bp : String) (c : Nat) : Nat :=
  Nat.find (exists_candidate_free fs bp c)

theorem nameFuel_succ {fs : List String} {bp : String} {c : Nat}
    (h : fileExists fs (candidateName bp c) = true) :
    nameFuel fs bp c = nameFuel fs bp (c + 1) + 1 := by
  have hNF : ∀ d : Nat,
      nameFuel fs bp d = Nat.find (exists_candidate_free fs bp d) := fun _ => rfl
  rw [hNF, hNF, Nat.find_eq_iff]
  constructor
  · have hspec := Nat.find_spec (exists_candidate_free fs bp (c + 1))
    have harith : c + 1 + Nat.find (exists_candidate_free fs bp (c + 1)) =
        c + (Nat.find (exists_candidate_free fs bp (c + 1)) + 1) := by omega
    rwa [harith] at hspec
  · intro j hj hP
    rcases j with _ | i
    · rw [Nat.add_zero, h] at hP
      exact Bool.noConfusion hP
    · have hi : i < Nat.find (exists_candidate_free fs bp (c + 1)) := by omega
      have hmin := Nat.find_min (exists_candidate_free fs bp (c + 1)) hi
      have harith : c + (i + 1) = c + 1 + i := by omega
      rw [harith] at hP
      exact hmin hP

/-- The uniqueness loop of `generateFileName` (lines 112-130): while the
current path exists, render the counter (throwing on conversion failure,
line 120), build the next candidate and retry with the counter
incremented. -/
def nameLoop (fs : List String) (basePath : String) (filePath : String)
    (counter : Nat) : Except String String :=
  if fileExists fs filePath then
    if (toDecimal counter).length ≤ COUNTER_STR_SIZE then
      nameLoop fs basePath (candidateName basePath counter) (counter + 1)
    else Except.error "Failed to convert number to string"
  else Except.ok filePath
termination_by (if fileExists fs filePath then 1 + nameFuel fs basePath counter else 0)
decreasing_by
  rename_i hmem _
  rw [if_pos hmem]
  by_cases hc : fileExists fs (candidateName basePath counter) = true
  · rw [if_pos hc, nameFuel_succ hc]
    omega
  · rw [if_neg hc]
    omega

theorem nameLoop_not_mem {fs : List String} {bp fp : String} {c : Nat}
    (h : fileExists fs fp = false) : nameLoop fs bp fp c = Except.ok fp := by
  unfold nameLoop
  rw [h]
  simp

theorem nameLoop_mem {fs : List String} {bp fp : String} {c : Nat}
    (h : fileExists fs fp = true)
    (hfit : (toDecimal c).length ≤ COUNTER_STR_SIZE) :
    nameLoop fs bp fp c = nameLoop fs bp (candidateName bp c) (c + 1) := by
  conv_lhs => rw [nameLoop]
  rw [h, if_pos hfit]
  simp

/-- Whatever path the uniqueness loop returns does not exist on the
filesystem: the loop only stops at a path failing the `fileExists` test. -/
theorem nameLoop_ok_not_mem {fs : List String} {bp : String} :
    ∀ {fp : String} {c : Nat} {p : String},
    nameLoop fs bp fp c = Except.ok p → fileExists fs p = false := by
  intro fp c
  induction fp, c using nameLoop.induct fs bp with
  | case1 fp c hmem hfit ih =>
    intro p h
    rw [nameLoop_mem hmem hfit] at h
    exact ih h
  | case2 fp c hmem hfit =>
    intro p h
    rw [nameLoop] at h
    simp [hmem, hfit] at h
  | case3 fp c hmem =>
    intro p h
    rw [nameLoop_not_mem (by simpa using hmem)] at h
    cases h
    simpa using hmem

/-- Function `generateFileName` (lines 86-133): compose
`[directory/]base[-date].png`, then run the uniqueness loop with the
counter starting at 1.  `dateStr` stands for the `strftime`-rendered
current local time (lines 72-79); `fs` is the filesystem state. -/
def generateFileName (fs : List String) (directory baseName : String)
    (includeDate : Bool) (dateStr : String) : Except String String :=
  let basePath := (if directory.isEmpty then "" else directory ++ "/")
    ++ baseName ++ (if includeDate then "-" ++ dateStr else "")
  nameLoop fs basePath (basePath ++ ".png") 1

/-! ### PNG encoding

`writePng` (lines 147-199) drives libpng.  Its observable effect is
modelled as the header fields passed to `png_set_IHDR` plus the sequence
of scanlines passed to `png_write_row`; each fallible libpng step is a
success flag of the write environment. -/

/-- libpng's `PNG_COLOR_TYPE_RGB`. -/
def PNG_COLOR_TYPE_RGB : Nat := 2

/-- libpng's `PNG_INTERLACE_NONE`. -/
def PNG_INTERLACE_NONE : Nat := 0

/-- The image file produced by a successful `writePng`: the declared
header and the scanlines written, in order. -/
structure PngImage where
  width : Nat
  height : Nat
  bitDepth : Nat
  colorType : Nat
  interlace : Nat
  rows : List (List RGB888)
  deriving Repr

/-- Success flags of the fallible steps inside `writePng`. -/
structure WriteEnv where
  destOpens : Bool
  structOk : Bool
  infoOk : Bool
  encodeOk : Bool
  deriving Repr, DecidableEq

/-- The scanline handed to `png_write_row` for row `y` (line 193): libpng
reads `WIDTH` consecutive pixels starting at address `&buffer[y * WIDTH]`. -/
def pngRow (buffer : List RGB888) (y : Nat) : List RGB888 :=
  (List.range WIDTH).map (fun x => buffer.getD (y * WIDTH + x) ⟨0, 0, 0⟩)

/-- The file a fully successful `writePng` produces: the header declared
by `png_set_IHDR` (lines 178-188) and the `HEIGHT` scanlines written top
to bottom by the row loop (lines 192-194). -/
def pngImageOf (buffer : List RGB888) : PngImage :=
  { width := WIDTH
    height := HEIGHT
    bitDepth := 8
    colorType := PNG_COLOR_TYPE_RGB
    interlace := PNG_INTERLACE_NONE
    rows := (List.range HEIGHT).map (pngRow buffer) }

/-- Function `writePng` (lines 147-199): on each failed step print a diagnostic and
return without a file; on success declare the fixed header and write the
scanlines.  Returns the diagnostics printed to `stderr` and the file
produced, if any.  The C++ function returns `void`, so the caller cannot
observe failure. -/
def writePng (env : WriteEnv) (buffer : List RGB888) :
    List String × Option PngImage :=
  if !env.destOpens then (["Failed to open file for writing"], none)
  else if !env.structOk then (["Failed to create PNG write struct"], none)
  else if !env.infoOk then (["Failed to create PNG info struct"], none)
  else if !env.encodeOk then (["Failed to set PNG jump buffer"], none)
  else ([], some (pngImageOf buffer))

/-! ### Command line and pipeline orchestration -/

/-- One processed command-line option, as classified by the `getopt_long`
switch in `main` (lines 221-237): `unknown` is any option `getopt_long`
does not recognise (it returns `?`, which falls into the `default` arm). -/
inductive Opt where
  | name (s : String)
  | directory (s : String)
  | noDate
  | help
  | unknown
  deriving Repr, DecidableEq

/-- The configuration accumulated by the option loop (lines 203-207). -/
structure Config where
  baseName : String
  directory : String
  includeDate : Bool
  showHelp : Bool
  deriving Repr, DecidableEq

/-- One iteration of the `switch` in the option loop (lines 222-236); the
`'h'` case and the `default` case are the same arm. -/
def parseStep (cfg : Config) (o : Opt) : Config :=
  match o with
  | .name s => { cfg with baseName := s }
  | .directory s => { cfg with directory := s }
  | .noDate => { cfg with includeDate := false }
  | .help => { cfg with showHelp := true }
  | .unknown => { cfg with showHelp := true }

/-- The whole option loop with the defaults of lines 203-207. -/
def parseOpts (opts : List Opt) : Config :=
  opts.foldl parseStep
    { baseName := "screenshot", directory := "", includeDate := true, showHelp := false }

/-- The fixed usage block printed on `showHelp` (lines 240-247). -/
def usageText : String :=
  "Usage: screenshot [options] -n --name -d --directory -x --no-date -h --help"

/-- The world `main` runs against: filesystem, current time, device stream
behaviour, pixel content of a full frame, and libpng behaviour. -/
structure Env where
  fs : List String
  dateStr : String
  deviceOpens : Bool
  deviceBytes : Nat
  frame : List RGB565
  png : WriteEnv

/-- Observable outcome of one invocation: exit status, the lines printed
to stdout and stderr, the image file created (if any), whether the device
was opened and read, and the output path that was generated (if the run
got that far). -/
structure Result where
  exitCode : Nat
  stdoutLines : List String
  stderrLines : List String
  outFile : Option PngImage
  deviceRead : Bool
  namedFile : Option String

/-- Function `main` (lines 202-274).  Help short-circuits before any pipeline work
(lines 239-249).  A `generateFileName` throw is an uncaught
`std::runtime_error`: abnormal termination (modelled as exit code 134),
no file.  Device-open failure and short read print a diagnostic and
return 1 (lines 254-267).  After that `writePng` runs, but since it
cannot report failure, `main` unconditionally prints the success line and
returns 0 (lines 270-273). -/
def mainRun (opts : List Opt) (env : Env) : Result :=
  let cfg := parseOpts opts
  if cfg.showHelp then
    { exitCode := 0, stdoutLines := [usageText], stderrLines := [],
      outFile := none, deviceRead := false, namedFile := none }
  else
    match generateFileName env.fs cfg.directory cfg.baseName cfg.includeDate env.dateStr with
    | .error e =>
      { exitCode := 134, stdoutLines := [], stderrLines := [e],
        outFile := none, deviceRead := false, namedFile := none }
    | .ok outputFile =>
      if !env.deviceOpens then
        { exitCode := 1, stdoutLines := [],
          stderrLines := ["Failed to open frame buffer"],
          outFile := none, deviceRead := false, namedFile := some outputFile }
      else if env.deviceBytes < WIDTH * HEIGHT * 2 then
        { exitCode := 1, stdoutLines := [],
          stderrLines := ["Failed to read frame buffer"],
          outFile := none, deviceRead := true, namedFile := some outputFile }
      else
        let written := writePng env.png (convertRgb565ToRgb888 env.frame)
        { exitCode := 0,
          stdoutLines := ["Screenshot saved as " ++ outputFile],
          stderrLines := written.1,
          outFile := written.2, deviceRead := true, namedFile := some outputFile }

/-! ### Supporting lemmas and scenario data -/

/-- Scanline `y` of a full-sized buffer is the `WIDTH`-pixel slice starting
at index `y * WIDTH`. -/
theorem pngRow_eq_slice {buffer : List RGB888} {y : Nat}
    (hlen : buffer.length = WIDTH * HEIGHT) (hy : y < HEIGHT) :
    pngRow buffer y = (buffer.drop (y * WIDTH)).take WIDTH := by
  simp only [WIDTH, HEIGHT] at hlen hy ⊢
  have hbound : y * 240 + 240 ≤ buffer.length := by omega
  apply List.ext_getElem
  · simp only [pngRow, WIDTH, List.length_map, List.length_range,
      List.length_take, List.length_drop]
    omega
  · intro i h1 h2
    have hiW : i < 240 := by
      simpa [pngRow, WIDTH] using h1
    have hidx : y * 240 + i < buffer.length := by omega
    simp only [pngRow, WIDTH, List.getElem_map, List.getElem_range]
    rw [List.getElem_take, List.getElem_drop]
    exact List.getD_eq_getElem buffer _ hidx

theorem parseStep_showHelp_mono {cfg : Config} (o : Opt)
    (h : cfg.showHelp = true) : (parseStep cfg o).showHelp = true := by
  cases o <;> simp [parseStep, h]

theorem foldl_parseStep_showHelp_mono :
    ∀ (opts : List Opt) (cfg : Config), cfg.showHelp = true →
    (opts.foldl parseStep cfg).showHelp = true := by
  intro opts
  induction opts with
  | nil => intro cfg h; exact h
  | cons o l ih =>
    intro cfg h
    exact ih (parseStep cfg o) (parseStep_showHelp_mono o h)

theorem foldl_parseStep_showHelp_of_unknown :
    ∀ (opts : List Opt) (cfg : Config), Opt.unknown ∈ opts →
    (opts.foldl parseStep cfg).showHelp = true := by
  intro opts
  induction opts with
  | nil => intro cfg h; cases h
  | cons o l ih =>
    intro cfg h
    rcases List.mem_cons.mp h with rfl | h'
    · exact foldl_parseStep_showHelp_mono l _ (by simp [parseStep])
    · exact ih _ h'

/-- Any unrecognised option flips `showHelp`, and nothing flips it back. -/
theorem parseOpts_showHelp_of_unknown {opts : List Opt}
    (h : Opt.unknown ∈ opts) : (parseOpts opts).showHelp = true :=
  foldl_parseStep_showHelp_of_unknown opts _ h

/-- The ten pre-existing files of the collision scenario:
`base.png, base-1.png, ..., base-9.png`. -/
def collidingFiles : List String :=
  ["base.png", "base-1.png", "base-2.png", "base-3.png", "base-4.png",
   "base-5.png", "base-6.png", "base-7.png", "base-8.png", "base-9.png"]

/-- A write environment in which every libpng step succeeds. -/
def allOkWrite : WriteEnv :=
  { destOpens := true, structOk := true, infoOk := true, encodeOk := true }

/-- A healthy run environment: empty filesystem, device delivers a full
frame of black pixels, libpng succeeds. -/
def sampleEnv : Env :=
  { fs := [], dateStr := "2024-07-26-12-00-00", deviceOpens := true,
    deviceBytes := WIDTH * HEIGHT * 2,
    frame := List.replicate (WIDTH * HEIGHT) ⟨0, 0, 0⟩, png := allOkWrite }

/-- Like `sampleEnv` but the destination file cannot be opened for
writing. -/
def failWriteEnv : Env :=
  { sampleEnv with png := { allOkWrite with destOpens := false } }

/-- Like `sampleEnv` but the device stream yields no bytes at all. -/
def shortReadEnv : Env :=
  { sampleEnv with deviceBytes := 0 }

/-! ### Claims -/

/-- C1: for every packed pixel the conversion computes each 8-bit output
channel as `floor(source_channel * 255 / max)` with max 31 for the 5-bit
red and blue channels and 63 for the 6-bit green channel; 0 maps to 0 and
the maximal input channel value (31 resp. 63) maps to 255. -/
theorem claim_C1_channel_rescale :
    (∀ p : RGB565, convertPixel p =
      { red := p.red * 255 / 31, green := p.green * 255 / 63,
        blue := p.blue * 255 / 31 }) ∧
    (∀ buffer565 : List RGB565,
      convertRgb565ToRgb888 buffer565 = buffer565.map convertPixel) ∧
    convert5 0 = 0 ∧ convert5 31 = 255 ∧ convert6 0 = 0 ∧ convert6 63 = 255 :=
  ⟨fun _ => rfl, fun _ => rfl, rfl, rfl, rfl, rfl⟩

/-- C4: each channel conversion is monotonic non-decreasing in the input. -/
theorem claim_C4_conversion_monotone (a b : Nat) (h : a ≤ b) :
    convert5 a ≤ convert5 b ∧ convert6 a ≤ convert6 b := by
  constructor <;>
    exact Nat.div_le_div_right (Nat.mul_le_mul_right _ h)

/-- Witness for C4 at the concrete pair 3 ≤ 17. -/
theorem claim_C4_witness :
    (3 : Nat) ≤ 17 ∧ convert5 3 ≤ convert5 17 ∧ convert6 3 ≤ convert6 17 :=
  ⟨by decide, (claim_C4_conversion_monotone 3 17 (by decide)).1,
    (claim_C4_conversion_monotone 3 17 (by decide)).2⟩

/-- C9: in the 16-bit packed word, blue is decoded from bits 0-4, green
from bits 5-10 and red from bits 11-15; the three fields tile the word
exactly. -/
theorem claim_C9_bit_layout (w : Nat) (h : w < 2 ^ 16) :
    (decodeRGB565 w).blue = w % 2 ^ 5 ∧
    (decodeRGB565 w).green = w / 2 ^ 5 % 2 ^ 6 ∧
    (decodeRGB565 w).red = w / 2 ^ 11 ∧
    2 ^ 11 * (decodeRGB565 w).red + 2 ^ 5 * (decodeRGB565 w).green +
      (decodeRGB565 w).blue = w := by
  refine ⟨rfl, rfl, ?_, ?_⟩ <;>
    · simp only [decodeRGB565]
      norm_num at h ⊢
      omega

/-- Witness for C9 at the concrete word 0xBEEF = 48879. -/
theorem claim_C9_witness :
    48879 < 2 ^ 16 ∧
    ((decodeRGB565 48879).blue = 48879 % 2 ^ 5 ∧
     (decodeRGB565 48879).green = 48879 / 2 ^ 5 % 2 ^ 6 ∧
     (decodeRGB565 48879).red = 48879 / 2 ^ 11 ∧
     2 ^ 11 * (decodeRGB565 48879).red + 2 ^ 5 * (decodeRGB565 48879).green +
       (decodeRGB565 48879).blue = 48879) :=
  ⟨by norm_num, claim_C9_bit_layout 48879 (by norm_num)⟩

/-- C8: for every positive counter representable in a C++ `int` (at most
2147483647, which has 10 decimal digits), rendering it into the
`COUNTER_STR_SIZE = 10` byte buffer succeeds, so the
`NumericConversionFailure` throw of `generateFileName` (line 120) is
unreachable while the counter stays in `int` range. -/
theorem claim_C8_counter_renders (n : Nat) (h1 : 1 ≤ n)
    (h2 : n ≤ 2147483647) : toChars n = some (toDecimalStr n) := by
  have hlt : n < 10 ^ 10 := by norm_num; omega
  have hlog : Nat.log 10 n < 10 := Nat.log_lt_of_lt_pow (by omega) hlt
  have hlen : (toDecimal n).length ≤ 10 := by
    rw [toDecimal_length]; omega
  simp [toChars, COUNTER_STR_SIZE, hlen]

/-- Witness for C8 at the concrete counter 1. -/
theorem claim_C8_witness :
    (1 : Nat) ≤ 1 ∧ (1 : Nat) ≤ 2147483647 ∧
    toChars 1 = some (toDecimalStr 1) :=
  ⟨by decide, by decide, claim_C8_counter_renders 1 (by decide) (by decide)⟩

/-- C3: the file-name generator never returns an existing path, and when
exactly `base.png, base-1.png, ..., base-9.png` exist it returns
`base-10.png`. -/
theorem claim_C3_collision_free :
    (∀ (fs : List String) (dir base : String) (withDate : Bool) (ds p : String),
      generateFileName fs dir base withDate ds = Except.ok p → p ∉ fs) ∧
    generateFileName collidingFiles "" "base" false "" =
      Except.ok "base-10.png" := by
  constructor
  · intro fs dir base wd ds p h
    simp only [generateFileName] at h
    have hfree := nameLoop_ok_not_mem h
    simpa [fileExists] using hfree
  · simp only [generateFileName]
    rw [nameLoop_mem (by decide) (by decide)]
    rw [nameLoop_mem (by decide) (by decide)]
    rw [nameLoop_mem (by decide) (by decide)]
    rw [nameLoop_mem (by decide) (by decide)]
    rw [nameLoop_mem (by decide) (by decide)]
    rw [nameLoop_mem (by decide) (by decide)]
    rw [nameLoop_mem (by decide) (by decide)]
    rw [nameLoop_mem (by decide) (by decide)]
    rw [nameLoop_mem (by decide) (by decide)]
    rw [nameLoop_mem (by decide) (by decide)]
    rw [nameLoop_not_mem (by decide)]
    exact congrArg Except.ok (by decide)

/-- Witness for C3: with only `base.png` existing the generator returns
`base-1.png`, which does not exist. -/
theorem claim_C3_witness :
    generateFileName ["base.png"] "" "base" false "" =
      Except.ok "base-1.png" ∧ "base-1.png" ∉ ["base.png"] := by
  have h : generateFileName ["base.png"] "" "base" false "" =
      Except.ok "base-1.png" := by
    simp only [generateFileName]
    rw [nameLoop_mem (by decide) (by decide), nameLoop_not_mem (by decide)]
    exact congrArg Except.ok (by decide)
  exact ⟨h, claim_C3_collision_free.1 _ _ _ _ _ _ h⟩

/-- C5: with the timestamp disabled, no directory and no collision, the
generator returns exactly `base.png`, with no directory component and no
leading separator. -/
theorem claim_C5_plain_name (fs : List String) (base ds : String)
    (h : fileExists fs (base ++ ".png") = false) :
    generateFileName fs "" base false ds = Except.ok (base ++ ".png") := by
  have hb : ((if ("" : String).isEmpty then "" else "" ++ "/") ++ base ++
      (if (false : Bool) then "-" ++ ds else "")) = base := by
    simp [show ("" : String).isEmpty = true from rfl,
      String.empty_append, String.append_empty]
  simp only [generateFileName, hb]
  exact nameLoop_not_mem h

/-- Witness for C5 with the default base name on an empty filesystem. -/
theorem claim_C5_witness :
    fileExists [] ("screenshot" ++ ".png") = false ∧
    generateFileName [] "" "screenshot" false "ds" =
      Except.ok ("screenshot" ++ ".png") :=
  ⟨by decide, claim_C5_plain_name [] "screenshot" "ds" (by decide)⟩

/-- C6: whenever the device stream yields fewer than WIDTH * HEIGHT * 2
bytes, the run exits with status 1, prints the short-read diagnostic, and
creates no output file. -/
theorem claim_C6_short_read (opts : List Opt) (env : Env) (p : String)
    (hhelp : (parseOpts opts).showHelp = false)
    (hname : generateFileName env.fs (parseOpts opts).directory
      (parseOpts opts).baseName (parseOpts opts).includeDate env.dateStr =
      Except.ok p)
    (hopen : env.deviceOpens = true)
    (hshort : env.deviceBytes < WIDTH * HEIGHT * 2) :
    (mainRun opts env).exitCode = 1 ∧ (mainRun opts env).outFile = none ∧
    (mainRun opts env).stderrLines = ["Failed to read frame buffer"] := by
  simp [mainRun, hhelp, hname, hopen, hshort]

/-- Witness for C6: an otherwise healthy run whose device stream yields 0
bytes. -/
theorem claim_C6_witness :
    (parseOpts []).showHelp = false ∧
    generateFileName shortReadEnv.fs (parseOpts []).directory
      (parseOpts []).baseName (parseOpts []).includeDate shortReadEnv.dateStr =
      Except.ok "screenshot-2024-07-26-12-00-00.png" ∧
    shortReadEnv.deviceOpens = true ∧
    shortReadEnv.deviceBytes < WIDTH * HEIGHT * 2 ∧
    ((mainRun [] shortReadEnv).exitCode = 1 ∧
     (mainRun [] shortReadEnv).outFile = none ∧
     (mainRun [] shortReadEnv).stderrLines = ["Failed to read frame buffer"]) := by
  have hname : generateFileName shortReadEnv.fs (parseOpts []).directory
      (parseOpts []).baseName (parseOpts []).includeDate shortReadEnv.dateStr =
      Except.ok "screenshot-2024-07-26-12-00-00.png" := by
    show generateFileName [] "" "screenshot" true "2024-07-26-12-00-00" = _
    simp only [generateFileName]
    rw [nameLoop_not_mem (by decide)]
    exact congrArg Except.ok (by decide)
  refine ⟨rfl, hname, rfl, by decide, ?_⟩
  exact claim_C6_short_read [] shortReadEnv _ rfl hname rfl (by decide)

/-- C2 (falsified by the code): when the destination file cannot be opened
for writing, `writePng` prints the diagnostic but `main` cannot observe
the failure, so the program still prints the success line and exits 0 -
contradicting the claim that every pipeline failure yields a non-zero
exit status. -/
theorem claim_C2_write_failure_exits_zero :
    (mainRun [] failWriteEnv).stderrLines =
      ["Failed to open file for writing"] ∧
    (mainRun [] failWriteEnv).exitCode = 0 ∧
    (mainRun [] failWriteEnv).outFile = none ∧
    (mainRun [] failWriteEnv).stdoutLines =
      ["Screenshot saved as screenshot-2024-07-26-12-00-00.png"] := by
  have hname : generateFileName [] "" "screenshot" true "2024-07-26-12-00-00" =
      Except.ok "screenshot-2024-07-26-12-00-00.png" := by
    simp only [generateFileName]
    rw [nameLoop_not_mem (by decide)]
    exact congrArg Except.ok (by decide)
  simp only [mainRun, parseOpts, List.foldl, failWriteEnv, sampleEnv,
    allOkWrite, hname, writePng]
  norm_num
  decide

/-- C7: a fully successful `writePng` declares the fixed geometry with
8-bit depth, RGB color type, no interlacing, and writes exactly HEIGHT
scanlines top to bottom, scanline y being the WIDTH consecutive pixels
starting at index y * WIDTH of the row-major buffer. -/
theorem claim_C7_encoder_output (we : WriteEnv) (buffer : List RGB888)
    (h1 : we.destOpens = true) (h2 : we.structOk = true)
    (h3 : we.infoOk = true) (h4 : we.encodeOk = true)
    (hlen : buffer.length = WIDTH * HEIGHT) :
    ∃ img, writePng we buffer = ([], some img) ∧
      img.width = WIDTH ∧ img.height = HEIGHT ∧ img.bitDepth = 8 ∧
      img.colorType = PNG_COLOR_TYPE_RGB ∧
      img.interlace = PNG_INTERLACE_NONE ∧
      img.rows.length = HEIGHT ∧
      ∀ y, y < HEIGHT →
        img.rows.getD y [] = (buffer.drop (y * WIDTH)).take WIDTH := by
  refine ⟨pngImageOf buffer, ?_, rfl, rfl, rfl, rfl, rfl, ?_, ?_⟩
  · simp [writePng, h1, h2, h3, h4]
  · simp [pngImageOf]
  · intro y hy
    have hylen : y < ((List.range HEIGHT).map (pngRow buffer)).length := by
      simpa using hy
    show ((List.range HEIGHT).map (pngRow buffer)).getD y [] = _
    rw [List.getD_eq_getElem _ _ hylen]
    simp only [List.getElem_map, List.getElem_range]
    exact pngRow_eq_slice hlen hy

/-- A full-frame constant buffer used by the C7 witness. -/
def sampleBuffer : List RGB888 :=
  List.replicate (WIDTH * HEIGHT) ⟨9, 18, 27⟩

/-- Witness for C7 on a healthy write environment and a full-sized
buffer. -/
theorem claim_C7_witness :
    allOkWrite.destOpens = true ∧ allOkWrite.structOk = true ∧
    allOkWrite.infoOk = true ∧ allOkWrite.encodeOk = true ∧
    sampleBuffer.length = WIDTH * HEIGHT ∧
    (∃ img, writePng allOkWrite sampleBuffer = ([], some img) ∧
      img.width = WIDTH ∧ img.height = HEIGHT ∧ img.bitDepth = 8 ∧
      img.colorType = PNG_COLOR_TYPE_RGB ∧
      img.interlace = PNG_INTERLACE_NONE ∧
      img.rows.length = HEIGHT ∧
      ∀ y, y < HEIGHT →
        img.rows.getD y [] = (sampleBuffer.drop (y * WIDTH)).take WIDTH) :=
  ⟨rfl, rfl, rfl, rfl, List.length_replicate _ _,
    claim_C7_encoder_output allOkWrite sampleBuffer rfl rfl rfl rfl
      (List.length_replicate _ _)⟩

/-- C10: any invocation containing an unrecognised option behaves exactly
as a help request: it prints the usage text, exits 0, generates no file
name, does not read the device, and creates no output file. -/
theorem claim_C10_unknown_option_is_help (opts : List Opt) (env : Env)
    (h : Opt.unknown ∈ opts) :
    mainRun opts env = mainRun [Opt.help] env ∧
    mainRun opts env =
      { exitCode := 0, stdoutLines := [usageText], stderrLines := [],
        outFile := none, deviceRead := false, namedFile := none } := by
  have hs := parseOpts_showHelp_of_unknown h
  have hh : (parseOpts [Opt.help]).showHelp = true := rfl
  constructor <;> simp [mainRun, hs, hh]

/-- Witness for C10 with the single unrecognised option. -/
theorem claim_C10_witness :
    Opt.unknown ∈ [Opt.unknown] ∧
    (mainRun [Opt.unknown] sampleEnv = mainRun [Opt.help] sampleEnv ∧
     mainRun [Opt.unknown] sampleEnv =
       { exitCode := 0, stdoutLines := [usageText], stderrLines := [],
         outFile := none, deviceRead := false, namedFile := none }) :=
  ⟨by decide, claim_C10_unknown_option_is_help [Opt.unknown] sampleEnv
    (by decide)⟩

end Screenshot
